import Mathlib

/-!
Verification of the synchronization engine of multiplayer.py against its
specification.  The definitions below are a shallow embedding of the engine:
external effects (socket attempts, process liveness, quit delivery) are
supplied by explicit oracles, and every function mirrors the corresponding
Python function line by line.
-/

set_option maxRecDepth 8192

namespace Multiplayer

/-- Outcome of one connection attempt inside send_command
(multiplayer.py lines 247 to 269): the send succeeded, or it raised
FileNotFoundError, socket.timeout, ConnectionRefusedError, or some other
exception. -/
inductive AttemptOutcome
  | success
  | notFound
  | timeout
  | refused
  | otherError
  deriving DecidableEq

/-- MAX_RETRIES constant (multiplayer.py line 38). -/
def MAX_RETRIES : Nat := 3

/-- Attempt loop of send_command (multiplayer.py lines 247 to 270),
parameterised by an oracle giving the outcome of each numbered attempt.
Returns the boolean result together with the number of attempts actually
performed.  On success, returns True.  On FileNotFoundError the source
returns False at once (line 257) without consuming further attempts.  On
socket.timeout, ConnectionRefusedError or any other exception, the source
sleeps RETRY_DELAY and moves to the next attempt; when the attempt budget is
exhausted it returns False (line 270) instead of raising. -/
def send_command_go (outcome : Nat → AttemptOutcome) : Nat → Nat → Bool × Nat
  | 0, attempts => (false, attempts)
  | fuel + 1, attempts =>
    match outcome attempts with
    | AttemptOutcome.success => (true, attempts + 1)
    | AttemptOutcome.notFound => (false, attempts + 1)
    | AttemptOutcome.timeout => send_command_go outcome fuel (attempts + 1)
    | AttemptOutcome.refused => send_command_go outcome fuel (attempts + 1)
    | AttemptOutcome.otherError => send_command_go outcome fuel (attempts + 1)

/-- send_command (multiplayer.py lines 245 to 270): runs the attempt loop
with the given retry budget, starting from attempt number 0. -/
def send_command (outcome : Nat → AttemptOutcome) (retries : Nat) : Bool × Nat :=
  send_command_go outcome retries 0

/-- send_command_parallel (multiplayer.py lines 272 to 290): one send_command
call per socket, each socket modelled by its attempt oracle; every thread is
joined before the function returns (lines 287 to 288), so the returned value
is exactly the vector of per-socket send_command results in socket order.
Per-socket failures are stored in the vector, never raised. -/
def send_command_parallel (socketsList : List (Nat → AttemptOutcome))
    (retries : Nat) : List Bool :=
  socketsList.map (fun outcome => (send_command outcome retries).1)

/-- check_processes_health (multiplayer.py lines 405 to 411): the tracked
processes are modelled by the list of their liveness flags, index i being
true exactly when processes[i].poll() is None; returns the indices whose
process has exited, in increasing order. -/
def check_processes_health (procsAlive : List Bool) : List Nat :=
  (List.range procsAlive.length).filter (fun i => !(procsAlive.getD i false))

/-- IPC commands issued by the engine: set_property pause b, seek 0 absolute,
get_property time-pos, quit. -/
inductive MpvCommand
  | setProperty (prop : String) (value : Bool)
  | seek (target : Int) (mode : String)
  | getProperty (prop : String)
  | quit
  deriving DecidableEq

/-- A broadcast of one command over the NUM_SCREENS sockets through
send_command_parallel, as performed inside sync_all; the network behaviour is
an oracle mapping (command, socket index, attempt number) to an attempt
outcome. -/
def broadcast (numScreens : Nat) (net : MpvCommand → Nat → Nat → AttemptOutcome)
    (c : MpvCommand) : List Bool :=
  send_command_parallel ((List.range numScreens).map (fun i => net c i)) MAX_RETRIES

/-- sync_all (multiplayer.py lines 414 to 460).  Checks process health first
and returns False without issuing any broadcast when some process is dead
(lines 419 to 422).  Otherwise issues the three phase broadcasts pause=true,
seek 0 absolute, pause=false; a shortfall in the first two phases is only
logged as a warning (lines 428 to 445), while the returned flag is False
exactly when the resume phase was acknowledged by fewer than NUM_SCREENS
sockets (lines 452 to 460).  The returned list records the broadcasts that
were issued together with their result vectors. -/
def sync_all (numScreens : Nat) (procsAlive : List Bool)
    (net : MpvCommand → Nat → Nat → AttemptOutcome) :
    Bool × List (MpvCommand × List Bool) :=
  if check_processes_health procsAlive ≠ [] then (false, [])
  else
    (if (broadcast numScreens net (MpvCommand.setProperty ("pause") false)).count true
        < numScreens then false else true,
     [(MpvCommand.setProperty ("pause") true,
       broadcast numScreens net (MpvCommand.setProperty ("pause") true)),
      (MpvCommand.seek 0 ("absolute"),
       broadcast numScreens net (MpvCommand.seek 0 ("absolute"))),
      (MpvCommand.setProperty ("pause") false,
       broadcast numScreens net (MpvCommand.setProperty ("pause") false))])

/-- Parsed JSON reply to a get_property request (multiplayer.py line 472):
the error string and the optional numeric data field. -/
structure MpvReply where
  error : String
  data : Option ℚ
  deriving DecidableEq

/-- Result of the socket round trip inside get_video_position: either a
parsed JSON reply, or a socket level failure (FileNotFoundError, timeout,
other exception), or a reply that did not decode as JSON. -/
inductive ReadResult
  | ok (reply : MpvReply)
  | socketError
  | badJson
  deriving DecidableEq

/-- get_video_position (multiplayer.py lines 463 to 483): when a reply
arrives and its error field is the string success, returns its data field,
defaulting to 0 when that field is absent (line 474); every other path falls
through to return None (line 483). -/
def get_video_position : ReadResult → Option ℚ
  | ReadResult.ok r => if r.error = ("success" : String) then some (r.data.getD 0) else none
  | ReadResult.socketError => none
  | ReadResult.badJson => none

/-- health_check_interval local constant of the main loop (line 538). -/
def health_check_interval : Nat := 10

/-- max_failed_reads local constant of the main loop (line 541). -/
def max_failed_reads : Nat := 5

/-- State carried across iterations of the main polling loop
(multiplayer.py lines 536 to 541): the iteration counter, the last observed
reference position and the consecutive failed read counter.  At loop entry
all three are zero. -/
structure MainState where
  iteration : Nat
  lastPosition : ℚ
  failedReads : Nat
  deriving DecidableEq

/-- Externally visible effect of one iteration of the polling loop: nothing,
a call to sync_all (the resync), or a fatal path, recording whether
cleanup_processes was run and the code passed to sys.exit. -/
inductive Action
  | none
  | resync
  | fatalExit (cleanup : Bool) (code : Nat)
  deriving DecidableEq

/-- Decides whether an action terminates the polling loop. -/
def isExit : Action → Bool
  | Action.fatalExit _ _ => true
  | _ => false

/-- One iteration of the main polling loop body (multiplayer.py lines 543 to
581).  The iteration counter is incremented (line 545); every
health_check_interval iterations the dead list is consulted and a nonempty
dead list causes cleanup and exit code 1 (lines 548 to 553); otherwise the
sampled position is examined: a successful sample resets the failed read
counter (line 559) and triggers a resync when it is below the previous
sample minus 1 (lines 563 to 567), while a failed sample increments the
counter and causes cleanup and exit code 1 once max_failed_reads consecutive
failures are reached (lines 576 to 581). -/
def mainStep (dead : List Nat) (s : MainState) (sample : Option ℚ) :
    MainState × Action :=
  if (s.iteration + 1) % health_check_interval = 0 ∧ dead ≠ [] then
    ({ s with iteration := s.iteration + 1 }, Action.fatalExit true 1)
  else
    match sample with
    | some pos =>
      ({ iteration := s.iteration + 1, lastPosition := pos, failedReads := 0 },
       if pos < s.lastPosition - 1 then Action.resync else Action.none)
    | none =>
      if max_failed_reads ≤ s.failedReads + 1 then
        ({ s with iteration := s.iteration + 1, failedReads := s.failedReads + 1 },
         Action.fatalExit true 1)
      else
        ({ s with iteration := s.iteration + 1, failedReads := s.failedReads + 1 },
         Action.none)

/-- Runs the polling loop over a list of reference position samples,
collecting the action of every iteration; a fatal action terminates the
run, so later samples are never examined. -/
def mainLoopRun (dead : List Nat) : MainState → List (Option ℚ) → List Action
  | _, [] => []
  | s, x :: xs =>
    if isExit (mainStep dead s x).2 then [(mainStep dead s x).2]
    else (mainStep dead s x).2 :: mainLoopRun dead (mainStep dead s x).1 xs

/-- Filesystem visible state owned by the supervisor: per process liveness
flags (true when poll() is None) and per slot socket file existence flags. -/
structure EngineFS where
  procAlive : List Bool
  socketFiles : List Bool
  deriving DecidableEq

/-- cleanup_processes (multiplayer.py lines 295 to 325), parameterised by
which processes the graceful quit command causes to exit during the half
second wait.  The force kill pass only touches processes whose handle still
reports running at that moment (line 307); terminate escalates to kill and
always reaps (lines 309 to 313), so afterwards every process is dead; every
socket file that still exists is unlinked, a missing file is skipped
(lines 318 to 323).  Returns the new state together with the indices of the
processes that were force terminated.  Every failure inside is caught and
logged, so the function never raises. -/
def cleanup_processes (quitExits : Nat → Bool) (s : EngineFS) :
    EngineFS × List Nat :=
  (⟨s.procAlive.map (fun _ => false), s.socketFiles.map (fun _ => false)⟩,
   (List.range s.procAlive.length).filter
     (fun i => s.procAlive.getD i false && !(quitExits i)))

/-- State for the signal handling model: the supervised filesystem state
plus a counter of how many times the body of cleanup_processes has been
executed. -/
structure SigState where
  fs : EngineFS
  cleanupRuns : Nat

/-- signal_handler (multiplayer.py lines 327 to 331): unconditionally runs
cleanup_processes and then calls sys.exit(0).  The handler contains no
already-running guard, so every delivery of SIGINT or SIGTERM executes the
cleanup body once more; a second signal arriving while teardown is in
progress re-enters this same function.  Returns the new state and the code
passed to sys.exit. -/
def signal_handler (quitExits : Nat → Bool) (s : SigState) : SigState × Nat :=
  (⟨(cleanup_processes quitExits s.fs).1, s.cleanupRuns + 1⟩, 0)

/-- Argument list built for MPV instance i (multiplayer.py lines 340 to 360),
before the video path is appended as the final argument; the title, screen
and socket arguments depend on the index exactly as in the source. -/
def mpvBaseCmd (i : Nat) : List String :=
  ["mpv",
   "--title=mpv-" ++ (if i + 1 < 10 then "0" else "") ++ toString (i + 1),
   "--loop",
   "--fullscreen",
   "--screen=" ++ toString i,
   "--input-ipc-server=/tmp/mpv_sockets/mpv_screen_" ++ toString i ++ ".sock",
   "--no-audio",
   "--force-window",
   "--vo=gpu",
   "--hwdec=auto",
   "--cache=yes",
   "--demuxer-max-bytes=50M",
   "--no-osc",
   "--no-osd-bar",
   "--osd-level=0",
   "--cursor-autohide=500",
   "--no-input-default-bindings",
   "--video-sync=display-resample"]

/-- Audio selection in the launch loop (multiplayer.py lines 362 to 365):
for the instance whose index equals NUM_SCREENS // 2 the no-audio flag is
removed from its argument list; every other instance keeps it. -/
def mpvCmd (numScreens i : Nat) : List String :=
  if i = numScreens / 2 then (mpvBaseCmd i).erase ("--no-audio")
  else mpvBaseCmd i

/-! Helper lemmas. -/

/-- Reading any index of a list mapped to the constant false yields false. -/
theorem getD_map_false {α : Type} (l : List α) (i : Nat) :
    (l.map (fun _ => false)).getD i false = false := by
  induction l generalizing i with
  | nil => simp
  | cons a t ih =>
    cases i with
    | zero => simp
    | succ j =>
      rw [List.map_cons, List.getD_cons_succ]
      exact ih j

/-- When every attempt in the budget fails with a retriable error, the
attempt loop consumes the whole budget and returns False. -/
theorem send_command_go_all_fail (outcome : Nat → AttemptOutcome) (fuel : Nat) :
    ∀ attempts : Nat,
      (∀ k, k < fuel → outcome (attempts + k) ≠ AttemptOutcome.success ∧
        outcome (attempts + k) ≠ AttemptOutcome.notFound) →
      send_command_go outcome fuel attempts = (false, attempts + fuel) := by
  induction fuel with
  | zero =>
    intro attempts _
    simp [send_command_go]
  | succ n ih =>
    intro attempts h
    have h0 := h 0 (Nat.succ_pos n)
    rw [Nat.add_zero] at h0
    have hrec := ih (attempts + 1) (fun k hk => by
      have hh := h (k + 1) (by omega)
      have he : attempts + (k + 1) = attempts + 1 + k := by omega
      rwa [he] at hh)
    unfold send_command_go
    cases hx : outcome attempts with
    | success => exact absurd hx h0.1
    | notFound => exact absurd hx h0.2
    | timeout => rw [hrec]; exact congrArg (Prod.mk false) (by omega)
    | refused => rw [hrec]; exact congrArg (Prod.mk false) (by omega)
    | otherError => rw [hrec]; exact congrArg (Prod.mk false) (by omega)

/-- A broadcast over numScreens sockets always returns numScreens results. -/
theorem broadcast_length (numScreens : Nat)
    (net : MpvCommand → Nat → Nat → AttemptOutcome) (c : MpvCommand) :
    (broadcast numScreens net c).length = numScreens := by
  simp [broadcast, send_command_parallel]

/-- A dead index is reported by check_processes_health. -/
theorem check_processes_health_mem (procsAlive : List Bool) (i : Nat)
    (hi : i < procsAlive.length) (hdead : procsAlive.getD i false = false) :
    i ∈ check_processes_health procsAlive := by
  rw [List.getD_eq_getElem?_getD, List.getElem?_eq_getElem hi] at hdead
  simp only [Option.getD_some] at hdead
  simp [check_processes_health, List.mem_filter, List.mem_range, hi, hdead]

/-- Each loop iteration increments the iteration counter by one. -/
theorem mainStep_iteration (dead : List Nat) (s : MainState) (x : Option ℚ) :
    (mainStep dead s x).1.iteration = s.iteration + 1 := by
  by_cases hc : (s.iteration + 1) % health_check_interval = 0 ∧ dead ≠ []
  · simp [mainStep, hc]
  · cases x with
    | some pos => simp [mainStep, hc]
    | none =>
      by_cases h5 : max_failed_reads ≤ s.failedReads + 1 <;> simp [mainStep, hc, h5]

/-- The only loop terminating action is cleanup followed by exit code 1. -/
theorem mainStep_exit_eq (dead : List Nat) (s : MainState) (x : Option ℚ)
    (h : isExit (mainStep dead s x).2 = true) :
    (mainStep dead s x).2 = Action.fatalExit true 1 := by
  by_cases hc : (s.iteration + 1) % health_check_interval = 0 ∧ dead ≠ []
  · simp [mainStep, hc]
  · cases x with
    | some pos =>
      by_cases hp : pos < s.lastPosition - 1
      · simp [mainStep, hc, hp, isExit] at h
      · simp [mainStep, hc, hp, isExit] at h
    | none =>
      by_cases h5 : max_failed_reads ≤ s.failedReads + 1
      · simp [mainStep, hc, h5]
      · simp [mainStep, hc, h5, isExit] at h

/-- On an iteration whose number is a multiple of health_check_interval, a
nonempty dead list makes the loop body terminate. -/
theorem mainStep_health_exit (dead : List Nat) (s : MainState) (x : Option ℚ)
    (hdead : dead ≠ []) (hmod : (s.iteration + 1) % health_check_interval = 0) :
    isExit (mainStep dead s x).2 = true := by
  simp [mainStep, hmod, hdead, isExit]

/-- With a nonempty dead list, the polling loop reaches the fatal
cleanup-and-exit-1 action after at most n further iterations whenever the
iteration counter plus n is a multiple of health_check_interval and at
least n samples remain. -/
theorem mainLoopRun_fatal (samples : List (Option ℚ)) :
    ∀ (s : MainState) (dead : List Nat) (n : Nat),
      dead ≠ [] → 1 ≤ n →
      (s.iteration + n) % health_check_interval = 0 →
      n ≤ samples.length →
      (mainLoopRun dead s samples).length ≤ n ∧
      (mainLoopRun dead s samples).getLast? = some (Action.fatalExit true 1) := by
  induction samples with
  | nil =>
    intro s dead n _ h1 _ hlen
    simp at hlen
    omega
  | cons x xs ih =>
    intro s dead n hdead h1 hmod hlen
    by_cases hex : isExit (mainStep dead s x).2 = true
    · have hact := mainStep_exit_eq dead s x hex
      rw [mainLoopRun, if_pos hex, hact]
      exact ⟨by simpa using h1, rfl⟩
    · have hn2 : 2 ≤ n := by
        rcases Nat.lt_or_ge n 2 with hlt | hge
        · have hn1 : n = 1 := by omega
          subst hn1
          exact absurd (mainStep_health_exit dead s x hdead (by simpa using hmod)) hex
        · exact hge
      have hit : (mainStep dead s x).1.iteration + (n - 1) = s.iteration + n := by
        have hi := mainStep_iteration dead s x
        omega
      have hxs : n - 1 ≤ xs.length := by
        simp only [List.length_cons] at hlen
        omega
      have ihr := ih (mainStep dead s x).1 dead (n - 1) hdead (by omega)
        (by rw [hit]; exact hmod) hxs
      rw [mainLoopRun, if_neg hex]
      constructor
      · simp only [List.length_cons]
        omega
      · cases hrun : mainLoopRun dead (mainStep dead s x).1 xs with
        | nil =>
          rw [hrun] at ihr
          simp at ihr
        | cons b l =>
          rw [List.getLast?_cons_cons]
          rw [hrun] at ihr
          exact ihr.2

/-! Claim theorems. -/

/-- C2: in the drift detection loop a resynchronisation is triggered exactly
when the newly sampled reference position is smaller than the previous
sample minus the fixed slack threshold of 1 second, and on the sample
sequence 5.0, 6.0, 7.0, 0.3 (starting from the initial last position 0)
exactly one resync is triggered, at the transition into 0.3. -/
theorem drift_loop_wrap (s : MainState) (pos : ℚ) :
    ((mainStep [] s (some pos)).2 = Action.resync ↔ pos < s.lastPosition - 1)
    ∧ mainLoopRun [] ⟨0, 0, 0⟩ [some 5, some 6, some 7, some (3/10)]
        = [Action.none, Action.none, Action.none, Action.resync]
    ∧ (mainLoopRun [] ⟨0, 0, 0⟩
        [some 5, some 6, some 7, some (3/10)]).count Action.resync = 1 := by
  have hrun : mainLoopRun [] ⟨0, 0, 0⟩ [some 5, some 6, some 7, some (3/10)]
      = [Action.none, Action.none, Action.none, Action.resync] := by
    norm_num [mainLoopRun, mainStep, health_check_interval, max_failed_reads, isExit]
  refine ⟨?_, hrun, by rw [hrun]; decide⟩
  by_cases hp : pos < s.lastPosition - 1 <;> simp [mainStep, hp]

/-- C3: send_command_parallel returns one boolean per socket, in socket
order, after joining every per-socket task; per-socket failures are recorded
in the vector and never raised; over 4 sockets where socket 2 always fails
the result is true, true, false, true. -/
theorem broadcast_contract (socketsList : List (Nat → AttemptOutcome))
    (retries : Nat) :
    (send_command_parallel socketsList retries).length = socketsList.length
    ∧ (∀ i : Nat, (send_command_parallel socketsList retries)[i]?
        = (socketsList[i]?).map (fun outcome => (send_command outcome retries).1))
    ∧ send_command_parallel
        [fun _ => AttemptOutcome.success, fun _ => AttemptOutcome.success,
         fun _ => AttemptOutcome.refused, fun _ => AttemptOutcome.success]
        MAX_RETRIES
      = [true, true, false, true] := by
  refine ⟨by simp [send_command_parallel], fun i => ?_, by decide⟩
  simp [send_command_parallel, List.getElem?_map]

/-- C4 counterexample: when the endpoint is absent (FileNotFoundError on
every attempt) send_command does not retry up to maxRetries: with a budget
of 3 it performs exactly one attempt, so the claim that every connect
failure is retried up to maxRetries is false on the code. -/
theorem send_retry_counterexample :
    send_command (fun _ => AttemptOutcome.notFound) 3 = (false, 1)
    ∧ (send_command (fun _ => AttemptOutcome.notFound) 3).2 ≠ 3 := by
  constructor
  · decide
  · decide

/-- C4 amended: send_command retries up to the full budget with a fixed
inter-attempt delay on connection refused, on timeout and on any other send
error, and returns False rather than raising when the budget is exhausted;
when the endpoint is absent (FileNotFoundError) it instead returns False
immediately after that attempt, without retrying. -/
theorem send_retry_amended (outcome : Nat → AttemptOutcome) (retries : Nat) :
    ((∀ k, k < retries → outcome k ≠ AttemptOutcome.success ∧
        outcome k ≠ AttemptOutcome.notFound) →
      send_command outcome retries = (false, retries))
    ∧ (0 < retries → outcome 0 = AttemptOutcome.notFound →
      send_command outcome retries = (false, 1)) := by
  constructor
  · intro h
    have hgo := send_command_go_all_fail outcome retries 0 (by simpa using h)
    simpa [send_command] using hgo
  · intro hr h0
    cases retries with
    | zero => omega
    | succ n => simp [send_command, send_command_go, h0]

/-- C4 witness: with connection refused on every attempt and a budget of 3,
send_command performs all 3 attempts and returns False; with the endpoint
absent on the first attempt it returns False after a single attempt. -/
theorem send_retry_amended_witness :
    send_command (fun _ => AttemptOutcome.refused) 3 = (false, 3)
    ∧ send_command (fun _ => AttemptOutcome.notFound) 2 = (false, 1) :=
  ⟨(send_retry_amended (fun _ => AttemptOutcome.refused) 3).1 (by decide),
   (send_retry_amended (fun _ => AttemptOutcome.notFound) 2).2 (by decide) rfl⟩

/-- C6: the polling loop counts failed position reads consecutively, any
successful read resets the counter to zero, and reaching max_failed_reads
(5) consecutive failures makes the loop perform cleanup and exit with code
1 instead of continuing: the first run exits at the fifth straight failure
without examining the remaining sample, and the second run shows a
successful read in the middle resetting the counter so the exit only comes
after five fresh consecutive failures. -/
theorem failed_reads_cap (s : MainState) (pos : ℚ) :
    ((mainStep [] s (some pos)).1.failedReads = 0)
    ∧ ((mainStep [] s none).1.failedReads = s.failedReads + 1)
    ∧ ((mainStep [] s none).2 = Action.fatalExit true 1 ↔
        max_failed_reads ≤ s.failedReads + 1)
    ∧ mainLoopRun [] ⟨0, 0, 0⟩ [none, none, none, none, none, some 1]
        = [Action.none, Action.none, Action.none, Action.none,
           Action.fatalExit true 1]
    ∧ mainLoopRun [] ⟨0, 0, 0⟩
        [none, none, none, none, some 2, none, none, none, none, none]
        = [Action.none, Action.none, Action.none, Action.none, Action.none,
           Action.none, Action.none, Action.none, Action.none,
           Action.fatalExit true 1] := by
  refine ⟨?_, ?_, ?_, ?_, ?_⟩
  · simp [mainStep]
  · by_cases h5 : max_failed_reads ≤ s.failedReads + 1 <;> simp [mainStep, h5]
  · by_cases h5 : max_failed_reads ≤ s.failedReads + 1 <;> simp [mainStep, h5]
  · norm_num [mainLoopRun, mainStep, health_check_interval, max_failed_reads, isExit]
  · norm_num [mainLoopRun, mainStep, health_check_interval, max_failed_reads, isExit]

/-- C1: sync_all returns False with no broadcast issued when some process is
dead at entry; with every process alive it returns True exactly when all
NUM_SCREENS sockets acknowledge the pause=false resume broadcast; and the
returned flag never depends on the outcomes of the pausing and seeking
phases, whose partial failures only produce warnings. -/
theorem sync_all_result (n : Nat) (procsAlive : List Bool)
    (net net2 : MpvCommand → Nat → Nat → AttemptOutcome) :
    (check_processes_health procsAlive ≠ [] →
      sync_all n procsAlive net = (false, []))
    ∧ (check_processes_health procsAlive = [] →
        ((sync_all n procsAlive net).1 = true ↔
          ∀ b ∈ broadcast n net (MpvCommand.setProperty ("pause") false),
            b = true))
    ∧ ((∀ i k, net2 (MpvCommand.setProperty ("pause") false) i k
          = net (MpvCommand.setProperty ("pause") false) i k) →
        (sync_all n procsAlive net2).1 = (sync_all n procsAlive net).1) := by
  refine ⟨fun h => by simp [sync_all, h], fun h => ?_, fun h => ?_⟩
  · simp only [sync_all, h, ne_eq, not_true_eq_false, ite_false, if_neg]
    by_cases hc :
        (broadcast n net (MpvCommand.setProperty ("pause") false)).count true < n
    · rw [if_pos hc]
      constructor
      · intro hft
        exact absurd hft (by decide)
      · intro hall
        have hcnt : (broadcast n net
              (MpvCommand.setProperty ("pause") false)).count true
            = (broadcast n net
              (MpvCommand.setProperty ("pause") false)).length :=
          List.count_eq_length.mpr (fun b hb => (hall b hb).symm)
        rw [broadcast_length] at hcnt
        omega
    · rw [if_neg hc]
      have hlen := broadcast_length n net (MpvCommand.setProperty ("pause") false)
      have hle := List.count_le_length true
        (broadcast n net (MpvCommand.setProperty ("pause") false))
      have hcnt : (broadcast n net
            (MpvCommand.setProperty ("pause") false)).count true
          = (broadcast n net (MpvCommand.setProperty ("pause") false)).length := by
        omega
      exact ⟨fun _ b hb => (List.count_eq_length.mp hcnt b hb).symm, fun _ => rfl⟩
  · have hfun : (fun i => net2 (MpvCommand.setProperty ("pause") false) i)
        = fun i => net (MpvCommand.setProperty ("pause") false) i :=
      funext fun i => funext fun k => h i k
    have hb : broadcast n net2 (MpvCommand.setProperty ("pause") false)
        = broadcast n net (MpvCommand.setProperty ("pause") false) := by
      simp only [broadcast]
      rw [hfun]
    by_cases hd : check_processes_health procsAlive = []
    · simp only [sync_all, hd, ne_eq, not_true_eq_false, ite_false, if_neg]
      rw [hb]
    · simp [sync_all, hd]

/-- C1 witness: with one dead process sync_all aborts with False and an
empty broadcast record; with both processes alive and a fully acknowledging
network it returns True. -/
theorem sync_all_result_witness :
    sync_all 2 [true, false] (fun _ _ _ => AttemptOutcome.success) = (false, [])
    ∧ (sync_all 2 [true, true] (fun _ _ _ => AttemptOutcome.success)).1 = true := by
  constructor
  · exact (sync_all_result 2 [true, false] (fun _ _ _ => AttemptOutcome.success)
      (fun _ _ _ => AttemptOutcome.success)).1 (by decide)
  · exact ((sync_all_result 2 [true, true] (fun _ _ _ => AttemptOutcome.success)
      (fun _ _ _ => AttemptOutcome.success)).2.1 (by decide)).mpr (by decide)

/-- C5 counterexample: with process 1 dead from the start, healthCheck does
report index 1, yet after one full poll interval the engine has neither
terminated the remaining slots nor exited: the first loop iteration performs
no action at all, because the periodic health check only runs every
health_check_interval (10) iterations, so the claimed exit within one poll
interval of the death is false on the code. -/
theorem health_fatal_counterexample :
    check_processes_health [true, false] = [1]
    ∧ mainLoopRun (check_processes_health [true, false]) ⟨0, 0, 0⟩ [some 2]
        = [Action.none] := by
  constructor
  · decide
  · norm_num [mainLoopRun, mainStep, health_check_interval, max_failed_reads,
      isExit, check_processes_health]

/-- C5 amended: if any tracked process handle reports exited, healthCheck
returns a list containing its index, and the polling loop performs cleanup
and exits with the non-zero code 1 within health_check_interval (10) poll
intervals of the death, not within one: the dead list is only consulted
every tenth iteration. -/
theorem health_fatal_amended (procsAlive : List Bool) (i : Nat)
    (hi : i < procsAlive.length) (hdead : procsAlive.getD i false = false)
    (s : MainState) (hit : s.iteration = 0)
    (samples : List (Option ℚ))
    (hlen : health_check_interval ≤ samples.length) :
    i ∈ check_processes_health procsAlive
    ∧ (mainLoopRun (check_processes_health procsAlive) s samples).length
        ≤ health_check_interval
    ∧ (mainLoopRun (check_processes_health procsAlive) s samples).getLast?
        = some (Action.fatalExit true 1) := by
  have hmem := check_processes_health_mem procsAlive i hi hdead
  have hne : check_processes_health procsAlive ≠ [] := by
    intro hn
    rw [hn] at hmem
    simp at hmem
  have hrun := mainLoopRun_fatal samples s (check_processes_health procsAlive)
      health_check_interval hne (by norm_num [health_check_interval])
      (by rw [hit]; norm_num [health_check_interval]) hlen
  exact ⟨hmem, hrun.1, hrun.2⟩

/-- C5 witness: with processes alive, dead and ten successful position
samples, index 1 is reported dead and the loop exits fatally within ten
iterations. -/
theorem health_fatal_witness :
    1 ∈ check_processes_health [true, false]
    ∧ (mainLoopRun (check_processes_health [true, false]) ⟨0, 0, 0⟩
        (List.replicate 10 (some 2))).length ≤ health_check_interval
    ∧ (mainLoopRun (check_processes_health [true, false]) ⟨0, 0, 0⟩
        (List.replicate 10 (some 2))).getLast?
        = some (Action.fatalExit true 1) :=
  health_fatal_amended [true, false] 1 (by decide) (by decide) ⟨0, 0, 0⟩ rfl
    (List.replicate 10 (some 2)) (by decide)

/-- C7: cleanup_processes only force-terminates processes whose handle still
reports running, leaves every process dead and every socket file removed,
and a second call in succession is a no-op: it terminates no process, keeps
zero socket files on disk, and being a total function it cannot raise. -/
theorem cleanup_idempotent (q1 q2 : Nat → Bool) (s : EngineFS) :
    (∀ i ∈ (cleanup_processes q1 s).2, s.procAlive.getD i false = true)
    ∧ (∀ b ∈ (cleanup_processes q1 s).1.procAlive, b = false)
    ∧ (∀ b ∈ (cleanup_processes q1 s).1.socketFiles, b = false)
    ∧ (cleanup_processes q2 (cleanup_processes q1 s).1).2 = []
    ∧ (cleanup_processes q2 (cleanup_processes q1 s).1).1.socketFiles
        = (cleanup_processes q1 s).1.socketFiles := by
  refine ⟨?_, ?_, ?_, ?_, ?_⟩
  · intro i hi
    simp only [cleanup_processes, List.mem_filter, List.mem_range,
      Bool.and_eq_true] at hi
    exact hi.2.1
  · intro b hb
    simp only [cleanup_processes, List.mem_map] at hb
    obtain ⟨a, _, hab⟩ := hb
    exact hab.symm
  · intro b hb
    simp only [cleanup_processes, List.mem_map] at hb
    obtain ⟨a, _, hab⟩ := hb
    exact hab.symm
  · simp only [cleanup_processes]
    rw [List.filter_eq_nil_iff]
    intro i _
    simp [getD_map_false]
  · simp only [cleanup_processes, List.map_map]
    rfl

/-- C7 witness: starting from one alive and one dead process with both
socket files present, the first cleanup only force-terminates the running
process 0, and the second cleanup call terminates nothing. -/
theorem cleanup_idempotent_witness :
    [true, false].getD 0 false = true
    ∧ (cleanup_processes (fun _ => false)
        (cleanup_processes (fun _ => false)
          ⟨[true, false], [true, true]⟩).1).2 = [] :=
  ⟨(cleanup_idempotent (fun _ => false) (fun _ => false)
      ⟨[true, false], [true, true]⟩).1 0 (by decide),
   (cleanup_idempotent (fun _ => false) (fun _ => false)
      ⟨[true, false], [true, true]⟩).2.2.2.1⟩

/-- C8 counterexample: the signal handler has no already-running guard, so
modelling a second signal delivered during teardown as a re-entrant
invocation of the handler, the cleanup body runs twice, not exactly once as
the claim states. -/
theorem signal_handler_counterexample :
    ((signal_handler (fun _ => false)
        ((signal_handler (fun _ => false) ⟨⟨[true], [true]⟩, 0⟩).1)).1).cleanupRuns
      = 2
    ∧ ((signal_handler (fun _ => false)
        ((signal_handler (fun _ => false) ⟨⟨[true], [true]⟩, 0⟩).1)).1).cleanupRuns
      ≠ 1 := by
  constructor
  · rfl
  · decide

/-- C8 amended: every delivery of an interrupt or terminate signal runs the
cleanup body once more and then exits with code 0; a second signal during
teardown therefore runs the cleanup a second time (there is no re-entrancy
guard), but that second run does not crash: it force-terminates no process,
because cleanup_processes tolerates already-dead processes and missing
socket files. -/
theorem signal_handler_amended (q1 q2 : Nat → Bool) (s : SigState) :
    (signal_handler q1 s).2 = 0
    ∧ ((signal_handler q2 (signal_handler q1 s).1).1).cleanupRuns
        = s.cleanupRuns + 2
    ∧ (cleanup_processes q2 ((signal_handler q1 s).1).fs).2 = [] := by
  refine ⟨rfl, rfl, ?_⟩
  simp only [signal_handler, cleanup_processes]
  rw [List.filter_eq_nil_iff]
  intro i _
  simp [getD_map_false]

/-- C9: for every screen count in 1 to 8, exactly the instance whose index
is NUM_SCREENS // 2 has the no-audio flag removed from its launch command,
and every other instance is launched muted. -/
theorem mpv_audio_selection (n : Nat) (h1 : 1 ≤ n) (h8 : n ≤ 8) :
    (n / 2 < n ∧ ("--no-audio" : String) ∉ mpvCmd n (n / 2))
    ∧ ∀ i, i < n → i ≠ n / 2 → ("--no-audio" : String) ∈ mpvCmd n i := by
  interval_cases n <;> exact ⟨by decide, by decide⟩

/-- C9 witness: with 3 screens the audio-bearing instance is index 1 and
instance 0 keeps the no-audio flag. -/
theorem mpv_audio_selection_witness :
    (3 / 2 < 3 ∧ ("--no-audio" : String) ∉ mpvCmd 3 (3 / 2))
    ∧ ("--no-audio" : String) ∈ mpvCmd 3 0 :=
  ⟨(mpv_audio_selection 3 (by decide) (by decide)).1,
   (mpv_audio_selection 3 (by decide) (by decide)).2 0 (by decide) (by decide)⟩

/-- C10: a reply that parses as JSON with error equal to success but no data
field makes get_video_position return 0 rather than None; the polling loop
then treats this as a successful read, resetting the consecutive failure
counter to zero, and whenever the previously observed position exceeds 1
second the 0 reading is interpreted as a loop-wrap, triggering a
resynchronisation. -/
theorem missing_data_field_resync (s : MainState) (h : 1 < s.lastPosition) :
    get_video_position (ReadResult.ok ⟨"success", none⟩) = some 0
    ∧ mainStep [] s (get_video_position (ReadResult.ok ⟨"success", none⟩))
        = ({ iteration := s.iteration + 1, lastPosition := 0, failedReads := 0 },
           Action.resync) := by
  have hg : get_video_position (ReadResult.ok ⟨"success", none⟩) = some 0 := rfl
  refine ⟨hg, ?_⟩
  rw [hg]
  have h0 : (0 : ℚ) < s.lastPosition - 1 := by linarith
  simp [mainStep, h0]

/-- C10 witness: with last observed position 2 the empty data field reading
resets the failure counter and triggers a resync. -/
theorem missing_data_field_resync_witness :
    get_video_position (ReadResult.ok ⟨"success", none⟩) = some 0
    ∧ mainStep [] ⟨0, 2, 3⟩ (get_video_position (ReadResult.ok ⟨"success", none⟩))
        = (⟨1, 0, 0⟩, Action.resync) :=
  missing_data_field_resync ⟨0, 2, 3⟩ one_lt_two

end Multiplayer
